import Mathlib

/-!
Verification model of the browser chat client in `src/frontend/app.js`
(rd_assistant).  The JavaScript file is embedded shallowly: DOM and
network effects become an explicit effect list, the mutable module
globals become fields of `AppState`, and each source function becomes a
Lean function of the same name.
-/

set_option maxRecDepth 10000

/-- JSON values as produced by `res.json()` / consumed by `JSON.stringify`.
Numbers are modelled as integers (no claim involves fractional values). -/
inductive Json where
  | null : Json
  | bool (b : Bool) : Json
  | num (n : Int) : Json
  | str (s : String) : Json
  | arr (xs : List Json) : Json
  | obj (fields : List (String × Json)) : Json

/-- A JavaScript value that may also be `undefined` (a missing property). -/
inductive JsVal where
  | undef : JsVal
  | val (j : Json) : JsVal

/-- Property lookup `o[k]` on a JSON value: first matching key of an
object, `none` (undefined) on missing keys and on non-objects. -/
def jsGet : Json → String → Option Json
  | Json.obj fields, k => fields.lookup k
  | _, _ => none

/-- Property lookup returning a `JsVal` (`undef` models JS `undefined`). -/
def jsGetV (j : Json) (k : String) : JsVal :=
  match jsGet j k with
  | some v => JsVal.val v
  | none => JsVal.undef

/-- JavaScript truthiness of a JSON value. -/
def truthy : Json → Bool
  | Json.null => false
  | Json.bool b => b
  | Json.num n => n != 0
  | Json.str s => s ≠ ""
  | Json.arr _ => true
  | Json.obj _ => true

/-- Truthiness of an optional property (`undefined` is falsy). -/
def truthyO : Option Json → Bool
  | none => false
  | some j => truthy j

/-- Truthiness of a `JsVal`. -/
def truthyV : JsVal → Bool
  | JsVal.undef => false
  | JsVal.val j => truthy j

/-- Update of the first matching key of an object's field list;
missing keys are appended at the end, as JS property creation does. -/
def jsSetFields : List (String × Json) → String → Json → List (String × Json)
  | [], k, v => [(k, v)]
  | (k', v') :: rest, k, v =>
      if k' = k then (k, v) :: rest else (k', v') :: jsSetFields rest k v

/-- Property assignment `o[k] = v`; assignment to a non-object primitive
is a silent no-op, as in non-strict JavaScript. -/
def jsSet : Json → String → Json → Json
  | Json.obj fields, k, v => Json.obj (jsSetFields fields k v)
  | j, _, _ => j

/-- Hexadecimal digit for `\uXXXX` escapes. -/
def hexDigit (n : Nat) : Char :=
  if n < 10 then Char.ofNat (48 + n) else Char.ofNat (87 + n)

/-- `JSON.stringify` escaping of a single character inside a string. -/
def escChar (c : Char) : List Char :=
  if c = '"' then ['\\', '"']
  else if c = '\\' then ['\\', '\\']
  else if c = '\n' then ['\\', 'n']
  else if c = '\r' then ['\\', 'r']
  else if c = '\t' then ['\\', 't']
  else if c = '\x08' then ['\\', 'b']
  else if c = '\x0c' then ['\\', 'f']
  else if c.toNat < 32 then
    ['\\', 'u', '0', '0', hexDigit (c.toNat / 16), hexDigit (c.toNat % 16)]
  else [c]

/-- `JSON.stringify` rendering of a string literal, quotes included. -/
def quoteString (s : String) : String :=
  "\"" ++ String.mk (s.data.flatMap escChar) ++ "\""

mutual

/-- `JSON.stringify` with no spacing, as called by `saveSettings` and by
the unrecognized-reply fallback of `onSend`. -/
def jsonStringify : Json → String
  | Json.null => "null"
  | Json.bool b => cond b "true" "false"
  | Json.num i => toString i
  | Json.str s => quoteString s
  | Json.arr xs => "[" ++ String.intercalate "," (stringifyElems xs) ++ "]"
  | Json.obj fields =>
      "\x7b" ++ String.intercalate "," (stringifyFields fields) ++ "\x7d"

/-- Serialization of the elements of a JSON array. -/
def stringifyElems : List Json → List String
  | [] => []
  | x :: xs => jsonStringify x :: stringifyElems xs

/-- Serialization of the fields of a JSON object. -/
def stringifyFields : List (String × Json) → List String
  | [] => []
  | (k, v) :: fs => (quoteString k ++ ":" ++ jsonStringify v) :: stringifyFields fs

end

/-! ### Text rendering (`renderMarkdown`, app.js lines 124-130)

Each `String.prototype.replace` pass with a global regex is embedded as
a left-to-right scanner.  In the JS regexes `.` does not match a
newline, while the code-span class `[^`]+` does; a failed match attempt
restarts one character further right.  The scanners use an explicit
fuel argument (the input length) so the recursion stays structural and
kernel-reducible. -/

/-- The backtick character (code-span delimiter). -/
def backtickChar : Char := Char.ofNat 96

/-- Scanner for the lazy group of the bold regex: earliest closing
double star, with the content not allowed to cross a newline. -/
def boldClose : List Char → Option (List Char × List Char)
  | '*' :: '*' :: rest => some ([], rest)
  | '\n' :: _ => none
  | c :: rest => (boldClose rest).map (fun pr => (c :: pr.1, pr.2))
  | [] => none

/-- One global-replace pass of the bold regex (fuel-indexed). -/
def replaceBoldF : Nat → List Char → List Char
  | 0, _ => []
  | _ + 1, [] => []
  | n + 1, '*' :: '*' :: rest =>
      match boldClose rest with
      | some (content, rest') =>
          "<strong>".data ++ content ++ "</strong>".data ++ replaceBoldF n rest'
      | none => '*' :: replaceBoldF n ('*' :: rest)
  | n + 1, c :: rest => c :: replaceBoldF n rest

/-- `text.replace(/\*\*(.*?)\*\*/g, '<strong>$1</strong>')`. -/
def replaceBold (l : List Char) : List Char := replaceBoldF l.length l

/-- Scanner for the lazy group of the italic regex: earliest closing
single star, content not crossing a newline. -/
def emClose : List Char → Option (List Char × List Char)
  | '*' :: rest => some ([], rest)
  | '\n' :: _ => none
  | c :: rest => (emClose rest).map (fun pr => (c :: pr.1, pr.2))
  | [] => none

/-- One global-replace pass of the italic regex (fuel-indexed). -/
def replaceEmF : Nat → List Char → List Char
  | 0, _ => []
  | _ + 1, [] => []
  | n + 1, '*' :: rest =>
      match emClose rest with
      | some (content, rest') =>
          "<em>".data ++ content ++ "</em>".data ++ replaceEmF n rest'
      | none => '*' :: replaceEmF n rest
  | n + 1, c :: rest => c :: replaceEmF n rest

/-- `text.replace(/\*(.*?)\*/g, '<em>$1</em>')`. -/
def replaceEm (l : List Char) : List Char := replaceEmF l.length l

/-- Tail of a code span: everything up to the next backtick. -/
def codeCloseTail : List Char → Option (List Char × List Char)
  | [] => none
  | c :: rest =>
      if c = backtickChar then some ([], rest)
      else (codeCloseTail rest).map (fun pr => (c :: pr.1, pr.2))

/-- Scanner for the code-span group: at least one non-backtick
character followed by a closing backtick. -/
def codeClose : List Char → Option (List Char × List Char)
  | [] => none
  | c :: rest =>
      if c = backtickChar then none
      else (codeCloseTail rest).map (fun pr => (c :: pr.1, pr.2))

/-- Opening tag substituted for a code span, exactly as in the source. -/
def codeSpanOpen : String :=
  "<code style=\"background-color: rgba(156,163,175,0.2); padding: 0.125rem 0.25rem; border-radius: 0.25rem; font-size: 0.875rem;\">"

/-- One global-replace pass of the code-span regex (fuel-indexed). -/
def replaceCodeF : Nat → List Char → List Char
  | 0, _ => []
  | _ + 1, [] => []
  | n + 1, c :: rest =>
      if c = backtickChar then
        match codeClose rest with
        | some (content, rest') =>
            codeSpanOpen.data ++ content ++ "</code>".data ++ replaceCodeF n rest'
        | none => c :: replaceCodeF n rest
      else c :: replaceCodeF n rest

/-- The code-span replace pass. -/
def replaceCode (l : List Char) : List Char := replaceCodeF l.length l

/-- `text.replace(/\n/g, '<br>')`. -/
def replaceNewlines : List Char → List Char
  | [] => []
  | '\n' :: rest => "<br>".data ++ replaceNewlines rest
  | c :: rest => c :: replaceNewlines rest

/-- `renderMarkdown` (app.js lines 124-130): bold, then italic, then
inline code, then newline-to-line-break. -/
def renderMarkdown (text : String) : String :=
  String.mk (replaceNewlines (replaceCode (replaceEm (replaceBold text.data))))

/-! ### `JSON.parse` (used by `loadSettings` on the persisted snapshot)

Fuel-indexed recursive-descent parser.  Fractional and exponent number
forms are not modelled (they parse to `none`); the strings this client
ever parses are its own `JSON.stringify` output, which contains none. -/

/-- JSON whitespace. -/
def jsWhitespace (c : Char) : Bool :=
  c = ' ' || c = '\t' || c = '\n' || c = '\r'

/-- Skip leading JSON whitespace. -/
def skipWs (cs : List Char) : List Char := cs.dropWhile jsWhitespace

/-- Value of one hexadecimal digit. -/
def hexVal (c : Char) : Option Nat :=
  if '0' ≤ c ∧ c ≤ '9' then some (c.toNat - 48)
  else if 'a' ≤ c ∧ c ≤ 'f' then some (c.toNat - 87)
  else if 'A' ≤ c ∧ c ≤ 'F' then some (c.toNat - 55)
  else none

/-- Parse the body of a JSON string literal (after the opening quote),
handling the escape forms of RFC 8259. -/
def parseStringBody : List Char → Option (String × List Char)
  | [] => none
  | c :: rest =>
    if c = '"' then some ("", rest)
    else if c = '\\' then
      match rest with
      | [] => none
      | e :: rest2 =>
        if e = 'u' then
          match rest2 with
          | h1 :: h2 :: h3 :: h4 :: rest3 =>
            match hexVal h1, hexVal h2, hexVal h3, hexVal h4 with
            | some a, some b, some x, some d =>
                (parseStringBody rest3).map
                  (fun pr => (String.mk (Char.ofNat (((a * 16 + b) * 16 + x) * 16 + d) :: pr.1.data), pr.2))
            | _, _, _, _ => none
          | _ => none
        else
          match
            (if e = '"' then some '"'
             else if e = '\\' then some '\\'
             else if e = '/' then some '/'
             else if e = 'n' then some '\n'
             else if e = 't' then some '\t'
             else if e = 'r' then some '\r'
             else if e = 'b' then some '\x08'
             else if e = 'f' then some '\x0c'
             else none) with
          | some d => (parseStringBody rest2).map (fun pr => (String.mk (d :: pr.1.data), pr.2))
          | none => none
    else (parseStringBody rest).map (fun pr => (String.mk (c :: pr.1.data), pr.2))

/-- Parse a JSON integer literal; fractional or exponent forms give
`none` (see the section comment). -/
def parseJsonNum (cs : List Char) : Option (Json × List Char) :=
  let (neg, cs1) :=
    match cs with
    | c :: rest => if c = '-' then (true, rest) else (false, cs)
    | [] => (false, cs)
  let digits := cs1.takeWhile Char.isDigit
  let rest := cs1.dropWhile Char.isDigit
  if digits.isEmpty then none
  else
    let magnitude : Nat := digits.foldl (fun a c => 10 * a + (c.toNat - 48)) 0
    let value : Int := if neg then -(magnitude : Int) else (magnitude : Int)
    match rest with
    | c :: _ => if c = '.' || c = 'e' || c = 'E' then none else some (Json.num value, rest)
    | [] => some (Json.num value, rest)

/-- Consume an expected literal tail (e.g. `rue` after `t`). -/
def dropLit : List Char → List Char → Option (List Char)
  | [], cs => some cs
  | l :: ls, c :: cs => if c = l then dropLit ls cs else none
  | _ :: _, [] => none

/-- The opening curly bracket character. -/
def braceOpen : Char := Char.ofNat 123

/-- The closing curly bracket character. -/
def braceClose : Char := Char.ofNat 125

mutual

/-- Parse one JSON value (fuel-indexed recursive descent). -/
def parseVal : Nat → List Char → Option (Json × List Char)
  | 0, _ => none
  | n + 1, cs =>
    match skipWs cs with
    | [] => none
    | c :: rest =>
      if c = '"' then (parseStringBody rest).map (fun pr => (Json.str pr.1, pr.2))
      else if c = braceOpen then
        match skipWs rest with
        | c2 :: rest2 =>
            if c2 = braceClose then some (Json.obj [], rest2)
            else (parseMembers n (c2 :: rest2)).map (fun pr => (Json.obj pr.1, pr.2))
        | [] => none
      else if c = '[' then
        match skipWs rest with
        | c2 :: rest2 =>
            if c2 = ']' then some (Json.arr [], rest2)
            else (parseElems n (c2 :: rest2)).map (fun pr => (Json.arr pr.1, pr.2))
        | [] => none
      else if c = 't' then (dropLit "rue".data rest).map (fun r => (Json.bool true, r))
      else if c = 'f' then (dropLit "alse".data rest).map (fun r => (Json.bool false, r))
      else if c = 'n' then (dropLit "ull".data rest).map (fun r => (Json.null, r))
      else if c.isDigit ∨ c = '-' then parseJsonNum (c :: rest)
      else none

/-- Parse the members of a non-empty JSON object, up to and including
the closing bracket. -/
def parseMembers : Nat → List Char → Option (List (String × Json) × List Char)
  | 0, _ => none
  | n + 1, cs =>
    match skipWs cs with
    | [] => none
    | c :: rest =>
      if c = '"' then
        match parseStringBody rest with
        | some (k, r1) =>
          match skipWs r1 with
          | c2 :: r2 =>
            if c2 = ':' then
              match parseVal n r2 with
              | some (v, r3) =>
                match skipWs r3 with
                | c3 :: r4 =>
                  if c3 = ',' then
                    (parseMembers n r4).map (fun pr => ((k, v) :: pr.1, pr.2))
                  else if c3 = braceClose then some ([(k, v)], r4)
                  else none
                | [] => none
              | none => none
            else none
          | [] => none
        | none => none
      else none

/-- Parse the elements of a non-empty JSON array, up to and including
the closing bracket. -/
def parseElems : Nat → List Char → Option (List Json × List Char)
  | 0, _ => none
  | n + 1, cs =>
    match parseVal n cs with
    | some (v, r1) =>
      match skipWs r1 with
      | c :: r2 =>
        if c = ',' then (parseElems n r2).map (fun pr => (v :: pr.1, pr.2))
        else if c = ']' then some ([v], r2)
        else none
      | [] => none
    | none => none

end

/-- `JSON.parse`: `none` models a thrown `SyntaxError`. -/
def parseJson (s : String) : Option Json :=
  match parseVal (2 * s.length + 4) s.data with
  | some (j, rest) => if skipWs rest = [] then some j else none
  | none => none

/-! ### Application state

The module-level globals of app.js (`sessionId`, `isDarkMode`,
`isLoading`, `customImages`), the two `localStorage` keys, and the
pieces of DOM state the claims observe (message history, the
`loadingMessage` placeholder, the send button's disabled flag, the
input field, body class, avatar previews, diagram text). -/

/-- Message roles; the source uses the CSS classes `user` / `bot`. -/
inductive Role where
  | user : Role
  | bot : Role

/-- One chat message as appended by `addMessage` (the bubble displays
`renderMarkdown content`; the history keeps the raw content). -/
structure Message where
  content : String
  role : Role

/-- The two `localStorage` keys the client reads and writes. -/
structure Storage where
  chatCustomImages : Option String
  chatTheme : Option String

/-- Which avatar an operation addresses. -/
inductive AvatarKind where
  | user : AvatarKind
  | bot : AvatarKind

/-- An uploaded file: its byte size and the data URL that
`readFileAsDataURL` would produce for it. -/
structure UploadFile where
  size : Nat
  dataURL : String

/-- The whole client state. -/
structure AppState where
  sessionId : JsVal
  isDarkMode : Bool
  isLoading : Bool
  customImages : Json
  messages : List Message
  placeholderShown : Bool
  sendDisabled : Bool
  inputValue : String
  bodyClass : String
  userPreview : Option JsVal
  botPreview : Option JsVal
  diagramText : Option JsVal
  storage : Storage

/-- Observable side effects: the three network calls, `alert`, and
`localStorage.setItem`. -/
inductive Eff where
  | postSessions : Eff
  | postMessage (sid : JsVal) (text : String) : Eff
  | getVisualization (sid : JsVal) : Eff
  | alertShown (msg : String) : Eff
  | storageWrite (key : String) (value : String) : Eff

/-- Which chain a `loadVisualization` call belongs to: the one awaited
inside `initSession` (whose continuation appends the greeting) or the
un-awaited one fired after a send resolves. -/
inductive VizCtx where
  | initChain : VizCtx
  | sendChain : VizCtx

/-- External events driving the client: DOM events and the resolution
or rejection of each in-flight network promise. -/
inductive Event where
  | domContentLoaded : Event
  | setInput (text : String) : Event
  | submit : Event
  | initResolved (data : Json) : Event
  | initRejected : Event
  | sendResolved (reply : Json) : Event
  | sendRejected : Event
  | vizResolved (ctx : VizCtx) (data : Json) : Event
  | vizRejected (ctx : VizCtx) : Event
  | themeToggle : Event
  | userAvatarChange (file : Option UploadFile) : Event
  | botAvatarChange (file : Option UploadFile) : Event
  | userAvatarReset : Event
  | botAvatarReset : Event

/-- `'dark'` / `'light'` from the boolean flag. -/
def themeString (dark : Bool) : String := cond dark "dark" "light"

/-- `updateAvatarPreview(type)` (app.js lines 185-198): shows the image
when the stored reference is truthy, the default upload icon otherwise. -/
def updateAvatarPreview (s : AppState) (kind : AvatarKind) : AppState :=
  match kind with
  | AvatarKind.user =>
      let img := jsGetV s.customImages "userAvatar"
      { s with userPreview := if truthyV img then some img else none }
  | AvatarKind.bot =>
      let img := jsGetV s.customImages "botAvatar"
      { s with botPreview := if truthyV img then some img else none }

/-- `saveSettings()` (app.js lines 18-21): writes both keys, whole
snapshot, overwriting. -/
def saveSettings (s : AppState) : AppState × List Eff :=
  let imgs := jsonStringify s.customImages
  let th := themeString s.isDarkMode
  ({ s with storage := { chatCustomImages := some imgs, chatTheme := some th } },
   [Eff.storageWrite "chatCustomImages" imgs, Eff.storageWrite "chatTheme" th])

/-- `loadSettings()` (app.js lines 6-16).  `none` models the handler
dying on a `JSON.parse` exception (before any assignment happens).
An empty stored string is falsy, hence skipped, like a missing key. -/
def loadSettings (s : AppState) : Option AppState :=
  let afterImages : Option AppState :=
    match s.storage.chatCustomImages with
    | none => some s
    | some str =>
        if str = "" then some s
        else
          match parseJson str with
          | some j => some { s with customImages := j }
          | none => none
  match afterImages with
  | none => none
  | some s1 =>
      let s2 :=
        match s1.storage.chatTheme with
        | none => s1
        | some t =>
            if t = "" then s1
            else
              let dk := t = "dark"
              { s1 with isDarkMode := dk, bodyClass := themeString dk }
      some (updateAvatarPreview (updateAvatarPreview s2 AvatarKind.user) AvatarKind.bot)

/-- `addMessage(content, type)` (app.js lines 71-87): appends one
message to the history. -/
def addMessage (s : AppState) (content : String) (role : Role) : AppState :=
  { s with messages := s.messages ++ [⟨content, role⟩] }

/-- The fixed greeting of `addInitialMessage` (app.js lines 31-33). -/
def greetingText : String := "👋 Hello! Ask me anything."

/-- `addInitialMessage()`. -/
def addInitialMessage (s : AppState) : AppState :=
  addMessage s greetingText Role.bot

/-- `startLoading()` (app.js lines 89-114): sets the flag, shows the
`loadingMessage` placeholder, disables the send button. -/
def startLoading (s : AppState) : AppState :=
  { s with isLoading := true, placeholderShown := true, sendDisabled := true }

/-- `stopLoading()` (app.js lines 116-122): clears the flag, removes
the placeholder, re-enables the send button. -/
def stopLoading (s : AppState) : AppState :=
  { s with isLoading := false, placeholderShown := false, sendDisabled := false }

/-- `input.value.trim()`.  JS trims the Unicode whitespace set; the
ASCII subset (`Char.isWhitespace`) is what the claims exercise. -/
def jsTrim (str : String) : String :=
  String.mk (((str.data.dropWhile Char.isWhitespace).reverse.dropWhile Char.isWhitespace).reverse)

/-- `onSend()` (app.js lines 52-69) up to the point where
`sendMessageToServer` issues its fetch.  Empty trimmed text or an
in-flight send returns without any effect. -/
def onSend (s : AppState) : AppState × List Eff :=
  let text := jsTrim s.inputValue
  if text = "" ∨ s.isLoading then (s, [])
  else
    let s1 := addMessage s text Role.user
    let s2 := { s1 with inputValue := "" }
    let s3 := startLoading s2
    (s3, [Eff.postMessage s3.sessionId text])

/-- `handleUserAvatarUpload(e)` (app.js lines 165-173).  `none` is an
empty file list.  Files over 2 MiB: alert, abort, no mutation. -/
def handleUserAvatarUpload (s : AppState) (file : Option UploadFile) : AppState × List Eff :=
  match file with
  | none => (s, [])
  | some f =>
      if f.size > 2 * 1024 * 1024 then (s, [Eff.alertShown "File too big"])
      else
        let s1 := { s with customImages := jsSet s.customImages "userAvatar" (Json.str f.dataURL) }
        saveSettings (updateAvatarPreview s1 AvatarKind.user)

/-- `handleBotAvatarUpload(e)` (app.js lines 175-183). -/
def handleBotAvatarUpload (s : AppState) (file : Option UploadFile) : AppState × List Eff :=
  match file with
  | none => (s, [])
  | some f =>
      if f.size > 2 * 1024 * 1024 then (s, [Eff.alertShown "File too big"])
      else
        let s1 := { s with customImages := jsSet s.customImages "botAvatar" (Json.str f.dataURL) }
        saveSettings (updateAvatarPreview s1 AvatarKind.bot)

/-- `resetUserAvatar()` (app.js line 200). -/
def resetUserAvatar (s : AppState) : AppState × List Eff :=
  let s1 := { s with customImages := jsSet s.customImages "userAvatar" Json.null }
  saveSettings (updateAvatarPreview s1 AvatarKind.user)

/-- `resetBotAvatar()` (app.js line 201). -/
def resetBotAvatar (s : AppState) : AppState × List Eff :=
  let s1 := { s with customImages := jsSet s.customImages "botAvatar" Json.null }
  saveSettings (updateAvatarPreview s1 AvatarKind.bot)

/-- `toggleTheme()` (app.js lines 203-211); the icon swap on the toggle
button is pure presentation and is not modelled. -/
def toggleTheme (s : AppState) : AppState × List Eff :=
  let dk := !s.isDarkMode
  saveSettings { s with isDarkMode := dk, bodyClass := themeString dk }

/-- The branch condition `resp.result && resp.result.response` of the
send continuation (app.js line 62). -/
def replyRecognized (reply : Json) : Bool :=
  truthyO (jsGet reply "result") &&
    truthyO ((jsGet reply "result").bind (fun r => jsGet r "response"))

/-- The value `resp.result.response.message` (app.js line 63). -/
def replyMessageField (reply : Json) : JsVal :=
  match (jsGet reply "result").bind (fun r => jsGet r "response") with
  | some respObj => jsGetV respObj "message"
  | none => JsVal.undef

/-- One event of the client's event loop.  Network resolutions run the
corresponding continuation from the source; rejections run nothing
because no `.catch` handler exists anywhere in app.js. -/
def step (s : AppState) (e : Event) : AppState × List Eff :=
  match e with
  | Event.domContentLoaded =>
      match loadSettings s with
      | none => (s, [])
      | some s1 => (s1, [Eff.postSessions])
  | Event.setInput t => ({ s with inputValue := t }, [])
  | Event.submit => onSend s
  | Event.initResolved data =>
      let s1 := { s with sessionId := jsGetV data "session_id" }
      (s1, [Eff.getVisualization s1.sessionId])
  | Event.initRejected => (s, [])
  | Event.sendResolved reply =>
      let s1 := stopLoading s
      if replyRecognized reply then
        match replyMessageField reply with
        | JsVal.val (Json.str m) =>
            (addMessage s1 m Role.bot, [Eff.getVisualization s1.sessionId])
        | _ => (s1, [])
      else
        (addMessage s1 (jsonStringify reply) Role.bot,
         [Eff.getVisualization s1.sessionId])
  | Event.sendRejected => (s, [])
  | Event.vizResolved ctx data =>
      let s1 := { s with diagramText := some (jsGetV data "diagram") }
      match ctx with
      | VizCtx.initChain => (addInitialMessage s1, [])
      | VizCtx.sendChain => (s1, [])
  | Event.vizRejected _ => (s, [])
  | Event.themeToggle => toggleTheme s
  | Event.userAvatarChange f => handleUserAvatarUpload s f
  | Event.botAvatarChange f => handleBotAvatarUpload s f
  | Event.userAvatarReset => resetUserAvatar s
  | Event.botAvatarReset => resetBotAvatar s

/-- A run of the event loop, accumulating emitted effects in order. -/
def run (s : AppState) : List Event → AppState × List Eff
  | [] => (s, [])
  | e :: es =>
      let r1 := step s e
      let r2 := run r1.1 es
      (r2.1, r1.2 ++ r2.2)

/-- The initial value of `customImages` (app.js line 4). -/
def initialCustomImages : Json :=
  Json.obj [("userAvatar", Json.null), ("botAvatar", Json.null)]

/-- Client state at script load, before any event: the globals'
initialisers plus `<body class="dark">` from index.html; the persisted
storage is whatever the browser held. -/
def initialState (st : Storage) : AppState :=
  { sessionId := JsVal.val Json.null
    isDarkMode := true
    isLoading := false
    customImages := initialCustomImages
    messages := []
    placeholderShown := false
    sendDisabled := false
    inputValue := ""
    bodyClass := "dark"
    userPreview := none
    botPreview := none
    diagramText := none
    storage := st }

/-- Fresh browser profile: neither key present. -/
def emptyStorage : Storage := ⟨none, none⟩

/-- The state a fresh page starts from. -/
def startState : AppState := initialState emptyStorage

/-! ### Concrete fixtures used by witnesses and counterexamples -/

/-- A state with a send in flight and fresh text typed into the input. -/
def loadingDemo : AppState :=
  { startState with
      isLoading := true
      placeholderShown := true
      sendDisabled := true
      messages := [⟨"hello", Role.user⟩]
      inputValue := "second message" }

/-- An idle state whose input holds only whitespace. -/
def blankInputDemo : AppState :=
  { startState with inputValue := "  \t " }

/-- A server reply with truthy `result` and `result.response` but no
`result.response.message` field. -/
def replyNoMessage : Json :=
  Json.obj [("result", Json.obj [("response", Json.obj [])])]

/-- The recognized-reply example from the specification. -/
def replyHi : Json :=
  Json.obj [("result", Json.obj [("response", Json.obj [("message", Json.str "Hi")])])]

/-- The init response used in concrete traces. -/
def initDemoData : Json := Json.obj [("session_id", Json.str "S1")]

/-- A file one byte over the 2 MiB cap. -/
def oversizeFile : UploadFile :=
  { size := 2 * 1024 * 1024 + 1, dataURL := "data:image/png;base64,AAAA" }

/-- A state whose persisted theme agrees with the in-memory flag. -/
def darkThemeDemo : AppState :=
  { startState with storage := ⟨none, some "dark"⟩ }

/-! ### Effect and event counters -/

/-- Is this effect the session-creation call `POST /sessions`? -/
def isPostSessions : Eff → Bool
  | Eff.postSessions => true
  | _ => false

/-- Is this effect a message send `POST /sessions/.../messages`? -/
def isPostMessage : Eff → Bool
  | Eff.postMessage _ _ => true
  | _ => false

/-- Is this event the `DOMContentLoaded` event? -/
def isDcl : Event → Bool
  | Event.domContentLoaded => true
  | _ => false

/-- Number of session-creation calls in an effect list. -/
def countPS (effs : List Eff) : Nat := effs.countP (fun e => isPostSessions e)

/-- Number of `DOMContentLoaded` events in an event list. -/
def countDcl (es : List Event) : Nat := es.countP (fun e => isDcl e)

/-! ### Helper lemmas -/

theorem countPS_append (a b : List Eff) : countPS (a ++ b) = countPS a + countPS b := by
  simp [countPS, List.countP_append]

theorem countPS_step_notDcl (s : AppState) (e : Event) (h : isDcl e = false) :
    countPS (step s e).2 = 0 := by
  cases e with
  | domContentLoaded => simp [isDcl] at h
  | setInput t => simp [step, countPS]
  | submit =>
      simp only [step, onSend]
      split <;> simp [countPS, isPostSessions, List.countP_cons, List.countP_nil]
  | initResolved d =>
      simp [step, countPS, isPostSessions, List.countP_cons, List.countP_nil]
  | initRejected => simp [step, countPS]
  | sendResolved r =>
      simp only [step]
      split
      · split <;> simp [countPS, isPostSessions, List.countP_cons, List.countP_nil]
      · simp [countPS, isPostSessions, List.countP_cons, List.countP_nil]
  | sendRejected => simp [step, countPS]
  | vizResolved ctx d =>
      cases ctx <;> simp [step, countPS]
  | vizRejected ctx => simp [step, countPS]
  | themeToggle =>
      simp [step, toggleTheme, saveSettings, countPS, isPostSessions,
        List.countP_cons, List.countP_nil]
  | userAvatarChange f =>
      cases f with
      | none => simp [step, handleUserAvatarUpload, countPS]
      | some f =>
          simp only [step, handleUserAvatarUpload]
          split <;>
            simp [saveSettings, countPS, isPostSessions, List.countP_cons, List.countP_nil]
  | botAvatarChange f =>
      cases f with
      | none => simp [step, handleBotAvatarUpload, countPS]
      | some f =>
          simp only [step, handleBotAvatarUpload]
          split <;>
            simp [saveSettings, countPS, isPostSessions, List.countP_cons, List.countP_nil]
  | userAvatarReset =>
      simp [step, resetUserAvatar, saveSettings, countPS, isPostSessions,
        List.countP_cons, List.countP_nil]
  | botAvatarReset =>
      simp [step, resetBotAvatar, saveSettings, countPS, isPostSessions,
        List.countP_cons, List.countP_nil]

theorem countPS_run_noDcl (es : List Event) : ∀ s : AppState,
    countDcl es = 0 → countPS (run s es).2 = 0 := by
  induction es with
  | nil => intro s _; simp [run, countPS]
  | cons e es ih =>
      intro s h
      have hc : countDcl es + (if isDcl e then 1 else 0) = 0 := by
        simpa [countDcl, List.countP_cons] using h
      have he : isDcl e = false := by
        cases hde : isDcl e <;> simp [hde] at hc ⊢
      have hes : countDcl es = 0 := by
        simpa [he] using hc
      simp [run, countPS_append, countPS_step_notDcl s e he, ih _ hes]

/-! ### Claim theorems -/

/-- C1: while a send is in flight (`isLoading` true), a user submission
is ignored outright: `onSend` issues no network call, appends no user
message, and leaves the whole state unchanged, so at most one
user-initiated send is in flight at any time. -/
theorem onSend_inFlight_noop (s : AppState) (h : s.isLoading = true) :
    onSend s = (s, []) := by
  simp [onSend, h]

/-- Witness for C1 at a concrete in-flight state with fresh input. -/
theorem onSend_inFlight_noop_witness :
    loadingDemo.isLoading = true ∧ onSend loadingDemo = (loadingDemo, []) :=
  ⟨rfl, onSend_inFlight_noop loadingDemo rfl⟩

/-- C2 counterexample: a user submission made after page load but
before the session-creation call has resolved does issue a send call —
with the still-null session id — so a send is not blocked on the
session-creation call completing. -/
theorem sendBeforeInit_counterexample :
    (run startState [Event.domContentLoaded, Event.setInput "hi", Event.submit]).2 =
      [Eff.postSessions, Eff.postMessage (JsVal.val Json.null) "hi"] := by
  rfl

/-- C2 (amended): exactly one session-creation call occurs per page
lifetime — the single `DOMContentLoaded` event issues exactly one
`POST /sessions` (provided the stored settings load without a parse
error), and no other event ever issues one; but sends are not blocked
on its completion. -/
theorem sessionCreation_once (s : AppState) (es : List Event)
    (hload : (loadSettings s).isSome = true) (hes : countDcl es = 0) :
    countPS (run s (Event.domContentLoaded :: es)).2 = 1 := by
  obtain ⟨s1, hs1⟩ := Option.isSome_iff_exists.mp hload
  have hstep : step s Event.domContentLoaded = (s1, [Eff.postSessions]) := by
    simp [step, hs1]
  simp only [run, hstep]
  rw [countPS_append, countPS_run_noDcl es s1 hes]
  rfl

/-- Witness for C2 (amended) on a concrete page-lifetime trace. -/
theorem sessionCreation_once_witness :
    (loadSettings startState).isSome = true ∧
    countDcl [Event.setInput "x", Event.submit] = 0 ∧
    countPS (run startState
        (Event.domContentLoaded :: [Event.setInput "x", Event.submit])).2 = 1 :=
  ⟨rfl, rfl,
    sessionCreation_once startState [Event.setInput "x", Event.submit] rfl rfl⟩

/-- C3 counterexample: the reply
`{result: {response: {}}}` lacks a `result.response.message` field, yet
the send continuation does not append the reply's JSON serialization —
it appends nothing at all (the guard only checks `result` and
`result.response`, and rendering the undefined message then throws),
and no diagram refresh is issued. -/
theorem replyFallback_counterexample :
    replyRecognized replyNoMessage = true ∧
    replyMessageField replyNoMessage = JsVal.undef ∧
    (step loadingDemo (Event.sendResolved replyNoMessage)).1.messages =
      loadingDemo.messages ∧
    ¬ (step loadingDemo (Event.sendResolved replyNoMessage)).1.messages =
        loadingDemo.messages ++ [⟨jsonStringify replyNoMessage, Role.bot⟩] ∧
    (step loadingDemo (Event.sendResolved replyNoMessage)).2 = [] := by
  refine ⟨rfl, rfl, rfl, ?_, rfl⟩
  intro hcontra
  have h3 : (step loadingDemo (Event.sendResolved replyNoMessage)).1.messages =
      loadingDemo.messages := rfl
  rw [h3] at hcontra
  have hl := congrArg List.length hcontra
  simp at hl

/-- C3 (amended): the send continuation appends exactly the string
`result.response.message` when the reply has truthy `result` and
`result.response` fields and that message is a string; it appends the
exact JSON serialization of the whole reply when `result` or
`result.response` is absent or falsy; when `result.response` is truthy
but the message is missing or not a string, it appends nothing
(rendering the undefined value fails). -/
theorem sendReply_interpretation (s : AppState) (r : Json) :
    (step s (Event.sendResolved r)).1.messages =
      s.messages ++
        (if replyRecognized r then
            match replyMessageField r with
            | JsVal.val (Json.str m) => [⟨m, Role.bot⟩]
            | _ => []
          else [⟨jsonStringify r, Role.bot⟩]) := by
  simp only [step]
  cases hrec : replyRecognized r with
  | false => simp [hrec, addMessage, stopLoading]
  | true =>
      simp only [hrec, if_true]
      cases hm : replyMessageField r with
      | undef => simp [stopLoading]
      | val j => cases j <;> simp [hm, addMessage, stopLoading]

/-- C4 counterexample: on the concrete successful init trace, once the
session id is recorded the diagram fetch has already been issued while
the greeting has not yet been appended — the greeting does not precede
the diagram refresh as the claim orders them. -/
theorem initOrder_counterexample :
    (run startState [Event.domContentLoaded, Event.initResolved initDemoData]).1.sessionId =
      JsVal.val (Json.str "S1") ∧
    (run startState [Event.domContentLoaded, Event.initResolved initDemoData]).2 =
      [Eff.postSessions, Eff.getVisualization (JsVal.val (Json.str "S1"))] ∧
    (run startState [Event.domContentLoaded, Event.initResolved initDemoData]).1.messages =
      [] :=
  ⟨rfl, rfl, rfl⟩

/-- C4 (amended): on successful session initialization the session id
is recorded first, then the diagram refresh is triggered exactly once
and awaited, then the fixed greeting is appended, and the machine is
idle (`isLoading` false) with no further effect. -/
theorem initSession_order (d v : Json) :
    (run startState [Event.domContentLoaded, Event.initResolved d]).1.sessionId =
      jsGetV d "session_id" ∧
    (run startState [Event.domContentLoaded, Event.initResolved d]).2 =
      [Eff.postSessions, Eff.getVisualization (jsGetV d "session_id")] ∧
    (run startState [Event.domContentLoaded, Event.initResolved d]).1.messages = [] ∧
    (run startState [Event.domContentLoaded, Event.initResolved d,
        Event.vizResolved VizCtx.initChain v]).1.messages =
      [⟨greetingText, Role.bot⟩] ∧
    (run startState [Event.domContentLoaded, Event.initResolved d,
        Event.vizResolved VizCtx.initChain v]).1.isLoading = false ∧
    (run startState [Event.domContentLoaded, Event.initResolved d,
        Event.vizResolved VizCtx.initChain v]).2 =
      [Eff.postSessions, Eff.getVisualization (jsGetV d "session_id")] :=
  ⟨rfl, rfl, rfl, rfl, rfl, rfl⟩

/-- C5: a rejected `sendMessageToServer` call is not locally recovered:
appending the rejection event to any execution changes nothing — no
assistant message is appended, the pending placeholder stays, the send
control stays disabled, `isLoading` keeps its value, and no retry or
other effect is issued (there is no `.catch` handler). -/
theorem sendRejected_unrecovered (s : AppState) (es : List Event) :
    run s (es ++ [Event.sendRejected]) = run s es := by
  induction es generalizing s with
  | nil => simp [run, step]
  | cons e es ih => simp [run, ih]

/-- C6: with input that is empty or whitespace-only after trimming, a
submission while idle is a complete no-op: no send call, no message
appended, no placeholder, state exactly unchanged. -/
theorem onSend_blankInput_noop (s : AppState) (h : jsTrim s.inputValue = "")
    (_hidle : s.isLoading = false) : onSend s = (s, []) := by
  simp [onSend, h]

/-- Witness for C6 at a concrete idle state holding whitespace. -/
theorem onSend_blankInput_noop_witness :
    jsTrim blankInputDemo.inputValue = "" ∧
    blankInputDemo.isLoading = false ∧
    onSend blankInputDemo = (blankInputDemo, []) :=
  ⟨rfl, rfl, onSend_blankInput_noop blankInputDemo rfl rfl⟩

/-- C7: a file over 2 MiB is rejected by either avatar upload handler:
the user-visible warning is shown and nothing else happens — the stored
avatar reference, the preview, and the persisted settings are
unchanged, and no persistence write is issued. -/
theorem avatarUpload_oversize_rejected (s : AppState) (f : UploadFile)
    (h : f.size > 2 * 1024 * 1024) :
    handleUserAvatarUpload s (some f) = (s, [Eff.alertShown "File too big"]) ∧
    handleBotAvatarUpload s (some f) = (s, [Eff.alertShown "File too big"]) := by
  constructor <;> simp [handleUserAvatarUpload, handleBotAvatarUpload, h]

/-- Witness for C7 at a file of exactly `2*1024*1024 + 1` bytes. -/
theorem avatarUpload_oversize_rejected_witness :
    oversizeFile.size > 2 * 1024 * 1024 ∧
    handleUserAvatarUpload startState (some oversizeFile) =
      (startState, [Eff.alertShown "File too big"]) ∧
    handleBotAvatarUpload startState (some oversizeFile) =
      (startState, [Eff.alertShown "File too big"]) :=
  ⟨by decide,
    (avatarUpload_oversize_rejected startState oversizeFile (by decide)).1,
    (avatarUpload_oversize_rejected startState oversizeFile (by decide)).2⟩

/-- C8: toggling the theme is an involution on the persisted theme
value: starting from a state whose stored `chatTheme` matches the
current theme, toggling twice restores the stored value. -/
theorem toggleTheme_involution (s : AppState)
    (h : s.storage.chatTheme = some (themeString s.isDarkMode)) :
    ((toggleTheme (toggleTheme s).1).1).storage.chatTheme = s.storage.chatTheme := by
  have hred : ((toggleTheme (toggleTheme s).1).1).storage.chatTheme =
      some (themeString (!(!s.isDarkMode))) := rfl
  rw [hred, Bool.not_not, ← h]

/-- Witness for C8 starting from the persisted dark theme. -/
theorem toggleTheme_involution_witness :
    darkThemeDemo.storage.chatTheme = some (themeString darkThemeDemo.isDarkMode) ∧
    ((toggleTheme (toggleTheme darkThemeDemo).1).1).storage.chatTheme =
      darkThemeDemo.storage.chatTheme :=
  ⟨rfl, toggleTheme_involution darkThemeDemo rfl⟩

/-- C9: the text transform applied to `"**a** *b* `c`\nd"` yields
bold-wrapped `a`, italic-wrapped `b`, code-wrapped `c`, and a line
break before `d`, in that order — bold resolved before italic, then
inline code, then newline-to-line-break. -/
theorem renderMarkdown_fixed_order :
    renderMarkdown "**a** *b* `c`\nd" =
      "<strong>a</strong> <em>b</em> <code style=\"background-color: rgba(156,163,175,0.2); padding: 0.125rem 0.25rem; border-radius: 0.25rem; font-size: 0.875rem;\">c</code><br>d" := by
  rfl

/-- C10: a change event with no file selected is a complete no-op for
either avatar handler: no state change, no warning, no persistence
write. -/
theorem avatarUpload_emptySelection_noop (s : AppState) :
    handleUserAvatarUpload s none = (s, []) ∧
    handleBotAvatarUpload s none = (s, []) :=
  ⟨rfl, rfl⟩
